import Mathlib

/-!
Verification of the nginx health-check Lambda (`src/task-3/src/check_web.py`).

The Python module is a single sequential handler with three external
collaborators: an HTTP transport (the probe GET and the notification POST),
AWS Secrets Manager, and the process environment. We embed it shallowly:
each external call's outcome is an input to the Lean function, and the
externally visible calls the code makes are recorded in an `Effect` trace.
All functions are total; a Python exception that escapes a function is an
`Except.error`, and one that is caught is handled exactly where the source
catches it.
-/

namespace CheckWeb

/-- Outcome of one HTTP request attempt (after urllib3's internal
transport-level retries): either a response with a status code and a body,
or a transport-level exception (timeout, DNS failure, connection refused,
TLS failure, ...). -/
inductive HttpResult where
  | resp (status : Nat) (body : String)
  | exn (msg : String)
deriving DecidableEq, Repr

/-- The value produced by `secrets_client.get_secret_value` followed by
`json.loads`: a JSON object is a string-to-string mapping (the credential
shapes the code reads are flat string maps); `nonObj` is a payload that is
valid JSON but not a JSON object (array, string, number, ...), on which the
dictionary method `.get` does not exist. -/
inductive SecretValue where
  | obj (kvs : List (String × String))
  | nonObj
deriving DecidableEq, Repr

/-- Outcome of the secret-store fetch plus JSON parse: `ok v` when the
secret exists, is accessible and parses; `exn` when the secret is missing,
access is denied, the response lacks `SecretString`, or `json.loads`
fails. -/
inductive SecretResult where
  | ok (v : SecretValue)
  | exn (msg : String)
deriving DecidableEq, Repr

/-- The three environment variables the handler reads. `none` is an unset
variable; `some ""` is a variable set to the empty string (Python treats
both as falsy in `if not x`, but `os.environ.get` with a default only
substitutes the default when the variable is unset). -/
structure Env where
  TARGET_URL : Option String
  NOTIFICATION_TYPE : Option String
  SECRET_NAME : Option String
deriving DecidableEq, Repr

/-- The outcomes the external world would hand each of the three network
calls of one invocation, were they made. -/
structure World where
  probeResult : HttpResult
  secretResult : SecretResult
  postResult : HttpResult
deriving DecidableEq, Repr

/-- Externally visible calls, in program order. `slackSend` / `telegramSend`
mark `send_notification` dispatching into the corresponding variant;
`httpPost` is an outbound notification POST actually attempted. -/
inductive Effect where
  | probeGet
  | secretFetch
  | slackSend
  | telegramSend
  | httpPost
deriving DecidableEq, Repr

/-- Python truthiness of an optional string: `None` and `""` are falsy. -/
def truthy : Option String → Bool
  | none => false
  | some s => !(s == "")

/-- Python `dict.get`: first binding of the key, `None` when absent. -/
def dictGet (kvs : List (String × String)) (k : String) : Option String :=
  (kvs.find? (fun p => p.1 == k)).map Prod.snd

/-- Helper for the substring test: does `pat` occur as a contiguous run
inside `l`? -/
def containsAux (pat : List Char) : List Char → Bool
  | [] => pat.isPrefixOf ([] : List Char)
  | c :: tl => pat.isPrefixOf (c :: tl) || containsAux pat tl

/-- Python `pat in s` substring test. -/
def strContains (s pat : String) : Bool :=
  containsAux pat.data s.data

/-- Python `s.lower()`, character by character (the strings the claims
involve are ASCII, where the two agree). -/
def strLower (s : String) : String :=
  ⟨s.data.map Char.toLower⟩

/-- Embedding of `check_nginx_health` (lines 88-127). The whole body is
inside `try`, and the bare `except` converts every exception — transport
failure included — to `False`, so the embedding is total. The inner
body-content inspection is kept exactly as written: both of its branches
return `True`. -/
def check_nginx_health (r : HttpResult) : Bool :=
  match r with
  | .resp status body =>
    if 200 ≤ status ∧ status < 300 then
      if strContains (strLower body) "nginx" || strContains (strLower body) "welcome" then
        true
      else
        true
    else
      false
  | .exn _ => false

/-- Embedding of `get_secret` (lines 129-150): the `except` clause prints
and re-raises, so the function propagates every store/parse failure and
returns the parsed value otherwise. -/
def get_secret (r : SecretResult) : Except String SecretValue :=
  match r with
  | .ok v => .ok v
  | .exn msg => .error msg

/-- Embedding of `send_slack_notification` (lines 177-227).
`config.get('slack_webhook_url')` raises `AttributeError` when the parsed
secret is not a dict; that line sits before the function's `try`, so the
exception escapes (`Except.error`). With a falsy webhook URL the function
returns `False` before any HTTP call. Otherwise the POST is attempted
(`Effect.httpPost`); success is status exactly 200, and a transport
exception is caught and converted to `False`. -/
def send_slack_notification (config : SecretValue) (post : HttpResult) :
    Except String Bool × List Effect :=
  match config with
  | .nonObj => (.error "AttributeError", [])
  | .obj kvs =>
    let webhook_url := dictGet kvs "slack_webhook_url"
    if !(truthy webhook_url) then
      (.ok false, [])
    else
      match post with
      | .resp status _ => (.ok (status == 200), [.httpPost])
      | .exn _ => (.ok false, [.httpPost])

/-- Embedding of `send_telegram_notification` (lines 229-271). The two
`config.get` calls sit before the `try`, so a non-dict secret raises out.
Missing or falsy `telegram_bot_token` or `telegram_chat_id` returns `False`
with no HTTP call; otherwise the POST is attempted, success is status
exactly 200, and a transport exception becomes `False`. -/
def send_telegram_notification (config : SecretValue) (post : HttpResult) :
    Except String Bool × List Effect :=
  match config with
  | .nonObj => (.error "AttributeError", [])
  | .obj kvs =>
    let bot_token := dictGet kvs "telegram_bot_token"
    let chat_id := dictGet kvs "telegram_chat_id"
    if !(truthy bot_token) || !(truthy chat_id) then
      (.ok false, [])
    else
      match post with
      | .resp status _ => (.ok (status == 200), [.httpPost])
      | .exn _ => (.ok false, [.httpPost])

/-- Embedding of `send_notification` (lines 152-175): routes on the
lower-cased notification type, returns `False` for an unknown type, and
its `try`/`except` catches any exception escaping the variant (in
particular the `AttributeError` on a non-dict secret) and converts it to
`False`. The trace marks which variant was entered. -/
def send_notification (notification_type : String) (config : SecretValue)
    (post : HttpResult) : Bool × List Effect :=
  if strLower notification_type == "slack" then
    match send_slack_notification config post with
    | (.ok b, effs) => (b, .slackSend :: effs)
    | (.error _, effs) => (false, .slackSend :: effs)
  else if strLower notification_type == "telegram" then
    match send_telegram_notification config post with
    | (.ok b, effs) => (b, .telegramSend :: effs)
    | (.error _, effs) => (false, .telegramSend :: effs)
  else
    (false, [])

/-- Body status of the invocation result. -/
inductive BStatus where
  | healthy
  | unhealthy
  | error
deriving DecidableEq, Repr

/-- The JSON body of the handler result: which of the optional fields are
present mirrors the three `json.dumps` call sites exactly. `timestamp` is
`datetime.utcnow().isoformat()`, threaded in as the parameter `now`. -/
structure HandlerBody where
  status : BStatus
  url : Option String
  notification_sent : Option Bool
  errorMsg : Option String
  timestamp : String
deriving DecidableEq, Repr

/-- The handler return value `{'statusCode': ..., 'body': ...}`. -/
structure HandlerResult where
  statusCode : Nat
  body : HandlerBody
deriving DecidableEq, Repr

/-- Embedding of `handler` (lines 14-86). The two `ValueError` raises for
missing configuration are caught by the handler's own `except` and become
the error result carrying `str(e)`; they occur before any network or
secret-store call, so the trace is empty there. A healthy probe returns
immediately after the GET. On an unhealthy probe, a `get_secret` failure
propagates to the handler's `except` (error result, no notification);
otherwise `send_notification` runs and its boolean lands in the body. -/
def handler (env : Env) (w : World) (now : String) : HandlerResult × List Effect :=
  if !(truthy env.TARGET_URL) then
    (⟨500, ⟨.error, none, none, some "TARGET_URL environment variable is required", now⟩⟩, [])
  else if !(truthy env.SECRET_NAME) then
    (⟨500, ⟨.error, none, none, some "SECRET_NAME environment variable is required", now⟩⟩, [])
  else
    let target_url := env.TARGET_URL.getD ""
    let notification_type := env.NOTIFICATION_TYPE.getD "slack"
    let is_healthy := check_nginx_health w.probeResult
    if is_healthy then
      (⟨200, ⟨.healthy, some target_url, none, none, now⟩⟩, [.probeGet])
    else
      match get_secret w.secretResult with
      | .error msg =>
        (⟨500, ⟨.error, none, none, some msg, now⟩⟩, [.probeGet, .secretFetch])
      | .ok config =>
        let r := send_notification notification_type config w.postResult
        (⟨500, ⟨.unhealthy, some target_url, some r.fst, none, now⟩⟩,
          [.probeGet, .secretFetch] ++ r.snd)

/-- A trace element that marks dispatch into one of the two notification
variants. -/
def isNotifyAttempt : Effect → Bool
  | .slackSend => true
  | .telegramSend => true
  | _ => false

/-- Boolean reading of "the POST outcome is a response with status exactly
200" — the success condition both notification variants test. -/
def post200 : HttpResult → Bool
  | .resp s _ => s == 200
  | .exn _ => false

/-- The credential bundle lacks a key the selected channel requires, with
Python truthiness (absent or empty string both count as missing). -/
def credsMissing (ntype : String) (kvs : List (String × String)) : Prop :=
  (strLower ntype = "slack" ∧ truthy (dictGet kvs "slack_webhook_url") = false) ∨
  (strLower ntype = "telegram" ∧
    (truthy (dictGet kvs "telegram_bot_token") = false ∨
     truthy (dictGet kvs "telegram_chat_id") = false))

theorem send_slack_obj_eq (kvs : List (String × String)) (post : HttpResult) :
    send_slack_notification (.obj kvs) post =
      if truthy (dictGet kvs "slack_webhook_url") then
        (.ok (post200 post), [.httpPost])
      else
        (.ok false, []) := by
  cases htr : truthy (dictGet kvs "slack_webhook_url") <;>
    cases post <;> simp [send_slack_notification, htr, post200]

theorem send_telegram_obj_eq (kvs : List (String × String)) (post : HttpResult) :
    send_telegram_notification (.obj kvs) post =
      if truthy (dictGet kvs "telegram_bot_token") &&
          truthy (dictGet kvs "telegram_chat_id") then
        (.ok (post200 post), [.httpPost])
      else
        (.ok false, []) := by
  cases h1 : truthy (dictGet kvs "telegram_bot_token") <;>
    cases h2 : truthy (dictGet kvs "telegram_chat_id") <;>
      cases post <;> simp [send_telegram_notification, h1, h2, post200]

theorem send_notification_slack (nt : String) (cfg : SecretValue)
    (post : HttpResult) (h : strLower nt = "slack") :
    send_notification nt cfg post =
      match cfg with
      | .nonObj => (false, [.slackSend])
      | .obj kvs =>
        (truthy (dictGet kvs "slack_webhook_url") && post200 post,
         .slackSend ::
           if truthy (dictGet kvs "slack_webhook_url") then [.httpPost] else []) := by
  cases cfg with
  | nonObj => simp [send_notification, h, send_slack_notification]
  | obj kvs =>
    rw [send_notification, if_pos (by simp [h])]
    rw [send_slack_obj_eq]
    cases htr : truthy (dictGet kvs "slack_webhook_url") <;> simp [htr]

theorem send_notification_telegram (nt : String) (cfg : SecretValue)
    (post : HttpResult) (h : strLower nt = "telegram") :
    send_notification nt cfg post =
      match cfg with
      | .nonObj => (false, [.telegramSend])
      | .obj kvs =>
        (truthy (dictGet kvs "telegram_bot_token") &&
           truthy (dictGet kvs "telegram_chat_id") && post200 post,
         .telegramSend ::
           if truthy (dictGet kvs "telegram_bot_token") &&
               truthy (dictGet kvs "telegram_chat_id") then [.httpPost] else []) := by
  cases cfg with
  | nonObj => simp [send_notification, h, send_telegram_notification]
  | obj kvs =>
    rw [send_notification, if_neg (by simp [h]), if_pos (by simp [h])]
    rw [send_telegram_obj_eq]
    cases h1 : truthy (dictGet kvs "telegram_bot_token") <;>
      cases h2 : truthy (dictGet kvs "telegram_chat_id") <;> simp [h1, h2]

theorem send_notification_unknown (nt : String) (cfg : SecretValue)
    (post : HttpResult) (h1 : strLower nt ≠ "slack") (h2 : strLower nt ≠ "telegram") :
    send_notification nt cfg post = (false, []) := by
  rw [send_notification, if_neg (by simp [h1]), if_neg (by simp [h2])]

theorem handler_unhealthy_ok (env : Env) (w : World) (now : String)
    (cfg : SecretValue)
    (hT : truthy env.TARGET_URL = true) (hS : truthy env.SECRET_NAME = true)
    (hu : check_nginx_health w.probeResult = false)
    (hsec : w.secretResult = .ok cfg) :
    handler env w now =
      (⟨500, ⟨.unhealthy, some (env.TARGET_URL.getD ""),
          some (send_notification (env.NOTIFICATION_TYPE.getD "slack") cfg
            w.postResult).fst, none, now⟩⟩,
        [.probeGet, .secretFetch] ++
          (send_notification (env.NOTIFICATION_TYPE.getD "slack") cfg
            w.postResult).snd) := by
  rw [handler, if_neg (by simp [hT]), if_neg (by simp [hS])]
  simp [hu, hsec, get_secret]

theorem check_healthy_of_2xx (status : Nat) (body : String)
    (h1 : 200 ≤ status) (h2 : status < 300) :
    check_nginx_health (.resp status body) = true := by
  rw [check_nginx_health, if_pos ⟨h1, h2⟩]
  cases strContains (strLower body) "nginx" || strContains (strLower body) "welcome" <;>
    simp

/-- C1: every response with status in [200, 300) is classified healthy by
`check_nginx_health`, whatever the body: the nginx/welcome substring
inspection never downgrades a 2xx verdict. -/
theorem C1_status_2xx_healthy_any_body (status : Nat) (body : String)
    (h1 : 200 ≤ status) (h2 : status < 300) :
    check_nginx_health (.resp status body) = true :=
  check_healthy_of_2xx status body h1 h2

/-- Witness for C1: status 204 with a body containing neither "nginx" nor
"welcome" is still classified healthy. -/
theorem C1_witness :
    200 ≤ 204 ∧ 204 < 300 ∧
      check_nginx_health (.resp 204 "plain gateway page") = true :=
  ⟨by decide, by decide,
    C1_status_2xx_healthy_any_body 204 "plain gateway page" (by decide) (by decide)⟩

/-- C2: the probe classifier is a total function (the bare except in the
source converts every exception to False, so the embedding returns a Bool
on every outcome), and every non-2xx response and every transport-level
failure yields false. -/
theorem C2_non_2xx_or_exn_unhealthy (r : HttpResult)
    (h : ∀ status body, r = .resp status body → status < 200 ∨ 300 ≤ status) :
    check_nginx_health r = false := by
  cases r with
  | exn m => rfl
  | resp s b =>
    have hs := h s b rfl
    have hns : ¬(200 ≤ s ∧ s < 300) := by omega
    simp [check_nginx_health, hns]

/-- Witness for C2: a transport exception (timeout) is classified
unhealthy. -/
theorem C2_witness :
    (∀ status body,
        HttpResult.exn "connection timeout" = .resp status body →
          status < 200 ∨ 300 ≤ status) ∧
      check_nginx_health (.exn "connection timeout") = false :=
  ⟨(fun _ _ h => nomatch h),
    C2_non_2xx_or_exn_unhealthy (.exn "connection timeout") (fun _ _ h => nomatch h)⟩

/-- C3: with TARGET_URL or SECRET_NAME unset or empty, the handler returns
statusCode 500 with body status error, and the effect trace is empty: no
probe, no secret-store call, no notification call. -/
theorem C3_missing_config_short_circuits (env : Env) (w : World) (now : String)
    (h : truthy env.TARGET_URL = false ∨ truthy env.SECRET_NAME = false) :
    (handler env w now).1.statusCode = 500 ∧
      (handler env w now).1.body.status = .error ∧
      (handler env w now).2 = [] := by
  rcases h with h | h
  · rw [handler, if_pos (by simp [h])]
    exact ⟨rfl, rfl, rfl⟩
  · by_cases hT : truthy env.TARGET_URL = true
    · rw [handler, if_neg (by simp [hT]), if_pos (by simp [h])]
      exact ⟨rfl, rfl, rfl⟩
    · rw [handler, if_pos (by simp at hT ⊢; simp [hT])]
      exact ⟨rfl, rfl, rfl⟩

/-- Witness for C3: TARGET_URL unset (with SECRET_NAME present) gives the
error result with an empty trace. -/
theorem C3_witness :
    (truthy (Env.mk none (some "slack") (some "creds")).TARGET_URL = false ∨
        truthy (Env.mk none (some "slack") (some "creds")).SECRET_NAME = false) ∧
      (handler ⟨none, some "slack", some "creds"⟩
          ⟨.resp 200 "ok", .ok .nonObj, .resp 200 "ok"⟩ "t").1.statusCode = 500 ∧
      (handler ⟨none, some "slack", some "creds"⟩
          ⟨.resp 200 "ok", .ok .nonObj, .resp 200 "ok"⟩ "t").1.body.status = .error ∧
      (handler ⟨none, some "slack", some "creds"⟩
          ⟨.resp 200 "ok", .ok .nonObj, .resp 200 "ok"⟩ "t").2 = [] := by
  refine ⟨Or.inl (by decide), ?_⟩
  exact C3_missing_config_short_circuits ⟨none, some "slack", some "creds"⟩
    ⟨.resp 200 "ok", .ok .nonObj, .resp 200 "ok"⟩ "t" (Or.inl (by decide))

/-- C5: on an unhealthy probe, a secret-store failure (not found, access
denied, or unparseable payload — all mapped to `SecretResult.exn`) makes
the handler return statusCode 500 with body status error, and the trace
stops at the secret fetch: no notification dispatch and no notification
POST. -/
theorem C5_secret_failure_error_no_notification (env : Env) (w : World)
    (now : String) (msg : String)
    (hT : truthy env.TARGET_URL = true) (hS : truthy env.SECRET_NAME = true)
    (hu : check_nginx_health w.probeResult = false)
    (hsec : w.secretResult = .exn msg) :
    handler env w now =
      (⟨500, ⟨.error, none, none, some msg, now⟩⟩, [.probeGet, .secretFetch]) := by
  rw [handler, if_neg (by simp [hT]), if_neg (by simp [hS])]
  simp [hu, hsec, get_secret]

/-- Witness for C5: unhealthy probe (status 503) and a missing secret. -/
theorem C5_witness :
    truthy (some "http://x") = true ∧ truthy (some "sec") = true ∧
      check_nginx_health (.resp 503 "oops") = false ∧
      handler ⟨some "http://x", none, some "sec"⟩
          ⟨.resp 503 "oops", .exn "ResourceNotFoundException", .resp 200 "ok"⟩ "t" =
        (⟨500, ⟨.error, none, none, some "ResourceNotFoundException", "t"⟩⟩,
          [.probeGet, .secretFetch]) :=
  ⟨by decide, by decide, by decide,
    C5_secret_failure_error_no_notification ⟨some "http://x", none, some "sec"⟩
      ⟨.resp 503 "oops", .exn "ResourceNotFoundException", .resp 200 "ok"⟩ "t"
      "ResourceNotFoundException" (by decide) (by decide) (by decide) rfl⟩

/-- C7: on a healthy probe the handler returns statusCode 200 with body
status healthy, the target URL and the timestamp, and the only external
call in the trace is the probe GET: no secret fetch, no notification. -/
theorem C7_healthy_no_secret_no_notification (env : Env) (w : World) (now : String)
    (hT : truthy env.TARGET_URL = true) (hS : truthy env.SECRET_NAME = true)
    (hh : check_nginx_health w.probeResult = true) :
    handler env w now =
      (⟨200, ⟨.healthy, some (env.TARGET_URL.getD ""), none, none, now⟩⟩,
        [.probeGet]) := by
  rw [handler, if_neg (by simp [hT]), if_neg (by simp [hS])]
  simp [hh]

/-- Witness for C7: a 200 response with the nginx welcome page. -/
theorem C7_witness :
    truthy (some "http://x") = true ∧ truthy (some "sec") = true ∧
      check_nginx_health (.resp 200 "Welcome to nginx!") = true ∧
      handler ⟨some "http://x", none, some "sec"⟩
          ⟨.resp 200 "Welcome to nginx!", .exn "unused", .exn "unused"⟩ "t" =
        (⟨200, ⟨.healthy, some "http://x", none, none, "t"⟩⟩, [.probeGet]) :=
  ⟨by decide, by decide,
    check_healthy_of_2xx 200 "Welcome to nginx!" (by decide) (by decide),
    C7_healthy_no_secret_no_notification ⟨some "http://x", none, some "sec"⟩
      ⟨.resp 200 "Welcome to nginx!", .exn "unused", .exn "unused"⟩ "t"
      (by decide) (by decide)
      (check_healthy_of_2xx 200 "Welcome to nginx!" (by decide) (by decide))⟩

theorem post200_false_of_fail (post : HttpResult)
    (h : (∃ s b, post = .resp s b ∧ s ≠ 200) ∨ (∃ m, post = .exn m)) :
    post200 post = false := by
  rcases h with ⟨s, b, rfl, hne⟩ | ⟨m, rfl⟩
  · simp [post200, hne]
  · rfl

theorem send_notification_fst_false (nt : String) (cfg : SecretValue)
    (post : HttpResult)
    (hfail :
      (∃ s b, post = .resp s b ∧ s ≠ 200) ∨ (∃ m, post = .exn m) ∨
        (∃ kvs, cfg = .obj kvs ∧ credsMissing nt kvs) ∨
        (strLower nt ≠ "slack" ∧ strLower nt ≠ "telegram")) :
    (send_notification nt cfg post).fst = false := by
  by_cases hsl : strLower nt = "slack"
  · rw [send_notification_slack nt cfg post hsl]
    cases cfg with
    | nonObj => rfl
    | obj kvs =>
      rcases hfail with hA | hB | ⟨kvs2, heq, hcm⟩ | ⟨h1, _⟩
      · simp [post200_false_of_fail post (Or.inl hA)]
      · simp [post200_false_of_fail post (Or.inr hB)]
      · injection heq with hk
        subst hk
        rcases hcm with ⟨_, hw⟩ | ⟨hteq, _⟩
        · simp [hw]
        · rw [hsl] at hteq
          exact absurd hteq (by decide)
      · exact absurd hsl h1
  · by_cases htg : strLower nt = "telegram"
    · rw [send_notification_telegram nt cfg post htg]
      cases cfg with
      | nonObj => rfl
      | obj kvs =>
        rcases hfail with hA | hB | ⟨kvs2, heq, hcm⟩ | ⟨_, h2⟩
        · simp [post200_false_of_fail post (Or.inl hA)]
        · simp [post200_false_of_fail post (Or.inr hB)]
        · injection heq with hk
          subst hk
          rcases hcm with ⟨hseq, _⟩ | ⟨_, hbc⟩
          · exact absurd hseq hsl
          · rcases hbc with hb | hc
            · simp [hb]
            · simp [hc]
        · exact absurd htg h2
    · rw [send_notification_unknown nt cfg post hsl htg]

/-- C4: on an unhealthy probe with a successful secret fetch, a dispatch
failure — a non-200 notification POST, a transport exception during the
POST, missing credential keys for the selected channel, or an unrecognized
channel type — never turns the invocation into an error result: the handler
still returns statusCode 500 with body status unhealthy, notification_sent
false, and no error field. -/
theorem C4_dispatch_failure_never_escalates (env : Env) (w : World)
    (now : String) (cfg : SecretValue)
    (hT : truthy env.TARGET_URL = true) (hS : truthy env.SECRET_NAME = true)
    (hu : check_nginx_health w.probeResult = false)
    (hsec : w.secretResult = .ok cfg)
    (hfail :
      (∃ s b, w.postResult = .resp s b ∧ s ≠ 200) ∨
        (∃ m, w.postResult = .exn m) ∨
        (∃ kvs, cfg = .obj kvs ∧
          credsMissing (env.NOTIFICATION_TYPE.getD "slack") kvs) ∨
        (strLower (env.NOTIFICATION_TYPE.getD "slack") ≠ "slack" ∧
          strLower (env.NOTIFICATION_TYPE.getD "slack") ≠ "telegram")) :
    (handler env w now).1.statusCode = 500 ∧
      (handler env w now).1.body.status = .unhealthy ∧
      (handler env w now).1.body.notification_sent = some false ∧
      (handler env w now).1.body.errorMsg = none := by
  have hsent := send_notification_fst_false (env.NOTIFICATION_TYPE.getD "slack")
    cfg w.postResult hfail
  rw [handler_unhealthy_ok env w now cfg hT hS hu hsec]
  simp [hsent]

/-- Witness for C4: slack channel, credentials present, webhook POST
answers 503 — the invocation still reports unhealthy with
notification_sent false. -/
theorem C4_witness :
    (∃ s b, HttpResult.resp 503 "err" = HttpResult.resp s b ∧ s ≠ 200) ∧
      (handler ⟨some "http://x", none, some "sec"⟩
          ⟨.exn "timeout", .ok (.obj [("slack_webhook_url", "https://hooks.example/x")]),
            .resp 503 "err"⟩ "t").1.statusCode = 500 ∧
      (handler ⟨some "http://x", none, some "sec"⟩
          ⟨.exn "timeout", .ok (.obj [("slack_webhook_url", "https://hooks.example/x")]),
            .resp 503 "err"⟩ "t").1.body.status = .unhealthy ∧
      (handler ⟨some "http://x", none, some "sec"⟩
          ⟨.exn "timeout", .ok (.obj [("slack_webhook_url", "https://hooks.example/x")]),
            .resp 503 "err"⟩ "t").1.body.notification_sent = some false ∧
      (handler ⟨some "http://x", none, some "sec"⟩
          ⟨.exn "timeout", .ok (.obj [("slack_webhook_url", "https://hooks.example/x")]),
            .resp 503 "err"⟩ "t").1.body.errorMsg = none := by
  refine ⟨⟨503, "err", rfl, by decide⟩, ?_⟩
  exact C4_dispatch_failure_never_escalates ⟨some "http://x", none, some "sec"⟩
    ⟨.exn "timeout", .ok (.obj [("slack_webhook_url", "https://hooks.example/x")]),
      .resp 503 "err"⟩ "t" (.obj [("slack_webhook_url", "https://hooks.example/x")])
    (by decide) (by decide) rfl rfl
    (Or.inl ⟨503, "err", rfl, by decide⟩)

theorem send_notification_trace_slack (nt : String) (cfg : SecretValue)
    (post : HttpResult) (h : strLower nt = "slack") :
    (send_notification nt cfg post).snd.countP isNotifyAttempt = 1 ∧
      Effect.slackSend ∈ (send_notification nt cfg post).snd ∧
      Effect.telegramSend ∉ (send_notification nt cfg post).snd := by
  rw [send_notification_slack nt cfg post h]
  cases cfg with
  | nonObj => exact ⟨rfl, by simp, by simp⟩
  | obj kvs =>
    cases htr : truthy (dictGet kvs "slack_webhook_url") <;>
      simp [htr, isNotifyAttempt]

theorem send_notification_trace_telegram (nt : String) (cfg : SecretValue)
    (post : HttpResult) (h : strLower nt = "telegram") :
    (send_notification nt cfg post).snd.countP isNotifyAttempt = 1 ∧
      Effect.telegramSend ∈ (send_notification nt cfg post).snd ∧
      Effect.slackSend ∉ (send_notification nt cfg post).snd := by
  rw [send_notification_telegram nt cfg post h]
  cases cfg with
  | nonObj => exact ⟨rfl, by simp, by simp⟩
  | obj kvs =>
    cases h1 : truthy (dictGet kvs "telegram_bot_token") <;>
      cases h2 : truthy (dictGet kvs "telegram_chat_id") <;>
        simp [h1, h2, isNotifyAttempt]

/-- C6: on an unhealthy probe with a successful secret fetch, the trace
contains exactly one dispatch into a notification variant, and it is the
variant NOTIFICATION_TYPE selects: the telegram variant exactly when the
variable is "telegram", and the slack (webhook) variant when it is "slack"
or unset. -/
theorem C6_exactly_one_dispatch_by_channel (env : Env) (w : World)
    (now : String) (cfg : SecretValue)
    (hT : truthy env.TARGET_URL = true) (hS : truthy env.SECRET_NAME = true)
    (hu : check_nginx_health w.probeResult = false)
    (hsec : w.secretResult = .ok cfg)
    (hnt : env.NOTIFICATION_TYPE = none ∨ env.NOTIFICATION_TYPE = some "slack" ∨
      env.NOTIFICATION_TYPE = some "telegram") :
    (handler env w now).2.countP isNotifyAttempt = 1 ∧
      (Effect.slackSend ∈ (handler env w now).2 ↔
        env.NOTIFICATION_TYPE ≠ some "telegram") ∧
      (Effect.telegramSend ∈ (handler env w now).2 ↔
        env.NOTIFICATION_TYPE = some "telegram") := by
  rw [handler_unhealthy_ok env w now cfg hT hS hu hsec]
  rcases hnt with hn | hn | hn
  · obtain ⟨hc, hm1, hm2⟩ :=
      send_notification_trace_slack "slack" cfg w.postResult (by decide)
    simp [hn, List.countP_append, List.countP_cons, isNotifyAttempt, hc, hm1, hm2]
  · obtain ⟨hc, hm1, hm2⟩ :=
      send_notification_trace_slack "slack" cfg w.postResult (by decide)
    simp [hn, List.countP_append, List.countP_cons, isNotifyAttempt, hc, hm1, hm2]
  · obtain ⟨hc, hm1, hm2⟩ :=
      send_notification_trace_telegram "telegram" cfg w.postResult (by decide)
    simp [hn, List.countP_append, List.countP_cons, isNotifyAttempt, hc, hm1, hm2]

/-- Witness for C6: NOTIFICATION_TYPE unset defaults to the slack
(webhook) variant. -/
theorem C6_witness :
    (Env.mk (some "http://x") none (some "sec")).NOTIFICATION_TYPE = none ∧
      (handler ⟨some "http://x", none, some "sec"⟩
          ⟨.exn "timeout", .ok (.obj []), .resp 200 "ok"⟩ "t").2.countP
        isNotifyAttempt = 1 ∧
      (Effect.slackSend ∈ (handler ⟨some "http://x", none, some "sec"⟩
          ⟨.exn "timeout", .ok (.obj []), .resp 200 "ok"⟩ "t").2 ↔
        (Env.mk (some "http://x") none (some "sec")).NOTIFICATION_TYPE ≠
          some "telegram") ∧
      (Effect.telegramSend ∈ (handler ⟨some "http://x", none, some "sec"⟩
          ⟨.exn "timeout", .ok (.obj []), .resp 200 "ok"⟩ "t").2 ↔
        (Env.mk (some "http://x") none (some "sec")).NOTIFICATION_TYPE =
          some "telegram") := by
  refine ⟨rfl, ?_⟩
  exact C6_exactly_one_dispatch_by_channel ⟨some "http://x", none, some "sec"⟩
    ⟨.exn "timeout", .ok (.obj []), .resp 200 "ok"⟩ "t" (.obj [])
    (by decide) (by decide) rfl rfl (Or.inl rfl)

/-- C8: with the required credential keys present, each notification
variant reports success exactly when the outbound POST receives HTTP
status 200; every other outcome — any other status, 2xx included (204),
or a transport exception — yields false. -/
theorem C8_success_iff_status_exactly_200 (kvs : List (String × String))
    (post : HttpResult)
    (hw : truthy (dictGet kvs "slack_webhook_url") = true)
    (hb : truthy (dictGet kvs "telegram_bot_token") = true)
    (hc : truthy (dictGet kvs "telegram_chat_id") = true) :
    ((send_slack_notification (.obj kvs) post).fst = .ok true ↔
        (∃ b, post = .resp 200 b)) ∧
      ((send_telegram_notification (.obj kvs) post).fst = .ok true ↔
        (∃ b, post = .resp 200 b)) := by
  rw [send_slack_obj_eq, send_telegram_obj_eq]
  rw [if_pos hw, if_pos (by rw [hb, hc]; rfl)]
  cases post with
  | resp s b => simp [post200]
  | exn m => simp [post200]

/-- Witness for C8: all keys present; a 200 POST succeeds, a 204 POST does
not. -/
theorem C8_witness :
    truthy (dictGet [("slack_webhook_url", "https://h"),
        ("telegram_bot_token", "tk"), ("telegram_chat_id", "42")]
        "slack_webhook_url") = true ∧
      ((send_slack_notification
          (.obj [("slack_webhook_url", "https://h"),
            ("telegram_bot_token", "tk"), ("telegram_chat_id", "42")])
          (.resp 204 "")).fst = .ok true ↔
        (∃ b, HttpResult.resp 204 "" = .resp 200 b)) ∧
      ((send_telegram_notification
          (.obj [("slack_webhook_url", "https://h"),
            ("telegram_bot_token", "tk"), ("telegram_chat_id", "42")])
          (.resp 204 "")).fst = .ok true ↔
        (∃ b, HttpResult.resp 204 "" = .resp 200 b)) := by
  refine ⟨by decide, ?_⟩
  exact C8_success_iff_status_exactly_200
    [("slack_webhook_url", "https://h"), ("telegram_bot_token", "tk"),
      ("telegram_chat_id", "42")] (.resp 204 "")
    (by decide) (by decide) (by decide)

/-- C9: a credential mapping lacking the selected channel's required keys
(slack_webhook_url for the webhook variant; telegram_bot_token or
telegram_chat_id for the bot-API variant) makes the variant return false
with an empty effect trace: no HTTP call is made. -/
theorem C9_missing_keys_false_no_http (kvs : List (String × String))
    (post : HttpResult) :
    (truthy (dictGet kvs "slack_webhook_url") = false →
        send_slack_notification (.obj kvs) post = (.ok false, [])) ∧
      ((truthy (dictGet kvs "telegram_bot_token") = false ∨
          truthy (dictGet kvs "telegram_chat_id") = false) →
        send_telegram_notification (.obj kvs) post = (.ok false, [])) := by
  constructor
  · intro hw
    rw [send_slack_obj_eq, if_neg (by simp [hw])]
  · intro hbc
    rw [send_telegram_obj_eq, if_neg (by rcases hbc with h | h <;> simp [h])]

/-- Witness for C9: an empty credential mapping makes both variants return
false without an HTTP call. -/
theorem C9_witness :
    send_slack_notification (.obj []) (.exn "unreachable") = (.ok false, []) ∧
      send_telegram_notification (.obj []) (.exn "unreachable") = (.ok false, []) :=
  ⟨(C9_missing_keys_false_no_http [] (.exn "unreachable")).1 (by decide),
    (C9_missing_keys_false_no_http [] (.exn "unreachable")).2 (Or.inl (by decide))⟩

/-- C10: a secret payload that is valid JSON but not a JSON object comes
back from get_secret without an error; on an unhealthy probe the
invocation is still not an error result: the credential lookup raises
inside the selected variant, send_notification catches it, and the
handler returns statusCode 500 with body status unhealthy and
notification_sent false. -/
theorem C10_non_object_secret_still_unhealthy (env : Env) (w : World)
    (now : String)
    (hT : truthy env.TARGET_URL = true) (hS : truthy env.SECRET_NAME = true)
    (hu : check_nginx_health w.probeResult = false)
    (hsec : w.secretResult = .ok .nonObj)
    (hnt : strLower (env.NOTIFICATION_TYPE.getD "slack") = "slack" ∨
      strLower (env.NOTIFICATION_TYPE.getD "slack") = "telegram") :
    get_secret w.secretResult = .ok .nonObj ∧
      (∃ m, (send_slack_notification .nonObj w.postResult).fst = .error m) ∧
      (∃ m, (send_telegram_notification .nonObj w.postResult).fst = .error m) ∧
      (handler env w now).1.statusCode = 500 ∧
      (handler env w now).1.body.status = .unhealthy ∧
      (handler env w now).1.body.notification_sent = some false ∧
      (handler env w now).1.body.errorMsg = none := by
  refine ⟨by rw [hsec]; rfl, ⟨"AttributeError", rfl⟩, ⟨"AttributeError", rfl⟩, ?_⟩
  have hsent : (send_notification (env.NOTIFICATION_TYPE.getD "slack") .nonObj
      w.postResult).fst = false := by
    rcases hnt with h | h
    · rw [send_notification_slack _ _ _ h]
    · rw [send_notification_telegram _ _ _ h]
  rw [handler_unhealthy_ok env w now .nonObj hT hS hu hsec]
  simp [hsent]

/-- Witness for C10: unhealthy probe and a secret whose payload is a JSON
array, with NOTIFICATION_TYPE unset (slack selected). -/
theorem C10_witness :
    get_secret (World.mk (.exn "timeout") (.ok .nonObj) (.resp 200 "ok")).secretResult =
        .ok .nonObj ∧
      (∃ m, (send_slack_notification .nonObj
        (World.mk (.exn "timeout") (.ok .nonObj) (.resp 200 "ok")).postResult).fst =
          .error m) ∧
      (∃ m, (send_telegram_notification .nonObj
        (World.mk (.exn "timeout") (.ok .nonObj) (.resp 200 "ok")).postResult).fst =
          .error m) ∧
      (handler ⟨some "http://x", none, some "sec"⟩
        ⟨.exn "timeout", .ok .nonObj, .resp 200 "ok"⟩ "t").1.statusCode = 500 ∧
      (handler ⟨some "http://x", none, some "sec"⟩
        ⟨.exn "timeout", .ok .nonObj, .resp 200 "ok"⟩ "t").1.body.status = .unhealthy ∧
      (handler ⟨some "http://x", none, some "sec"⟩
        ⟨.exn "timeout", .ok .nonObj, .resp 200 "ok"⟩ "t").1.body.notification_sent =
        some false ∧
      (handler ⟨some "http://x", none, some "sec"⟩
        ⟨.exn "timeout", .ok .nonObj, .resp 200 "ok"⟩ "t").1.body.errorMsg = none :=
  C10_non_object_secret_still_unhealthy ⟨some "http://x", none, some "sec"⟩
    ⟨.exn "timeout", .ok .nonObj, .resp 200 "ok"⟩ "t"
    (by decide) (by decide) rfl rfl (Or.inl (by decide))

end CheckWeb
